import Mathlib

/-!
Shallow embedding of `blinkerc/blinkerc.py` (class-level signals on top of
blinker) together with the relevant behaviour of its external collaborator,
the blinker library (named signals in a namespace, receiver registration
keyed by object identity with weak references, synchronous fan-out).

Modelling conventions:
* Python objects that matter only through their identity (classes, channels,
  handler functions, dynamically created cascade closures) are numbered.
* A `World` packs the process-wide mutable state of the module:
  `signal_classes`, `base_signals`, every channel receiver list, the
  dynamically created cascade closures, the `_cascade_*` class attributes
  and each class own `signal_namespace` dict.
* blinker connects receivers weakly: a cascade closure is referenced only by
  the class attribute that was set to it, so overwriting the attribute drops
  the closure and blinker unregisters it.  The model performs that
  disconnection eagerly at the overwriting `setattr`, which is exactly when
  CPython reference counting collects the closure.
* Keyword payloads are association lists from string keys to opaque values.
* Emission returns the synchronous invocation log (receiver, sender,
  payload) in call order; nested sends of cascade closures are inlined.
-/

/-- Association-list lookup, first match wins (Python dict lookup). -/
def lookA {α β : Type} [DecidableEq α] (k : α) : List (α × β) → Option β
  | [] => none
  | (k', v) :: rest => if k = k' then some v else lookA k rest

/-- Association-list update with Python dict semantics: an existing key keeps
its position and gets the new value, a new key is appended. -/
def setA {α β : Type} [DecidableEq α] (k : α) (v : β) : List (α × β) → List (α × β)
  | [] => [(k, v)]
  | (k', v') :: rest => if k = k' then (k', v) :: rest else (k', v') :: setA k v rest

/-- Model of the `SignalSchema` Python class: `oid` is the object identity
(`id(obj)`), `name` and `cascade` are the two stored fields. -/
structure SignalSchema where
  oid : Nat
  name : String
  cascade : Bool
  deriving DecidableEq

/-- Default `object.__eq__`: `SignalSchema` defines `__hash__` but no
`__eq__`, so Python equality is object identity. -/
def SignalSchema.pyEq (s t : SignalSchema) : Bool := s.oid == t.oid

/-- The `__hash__` of `SignalSchema`: the hash of `str(self.name)`. -/
def SignalSchema.pyHash (s : SignalSchema) : UInt64 := s.name.hash

/-- The `__str__` of `SignalSchema`. -/
def SignalSchema.pyStr (s : SignalSchema) : String := s.name

/-- Class identifiers.  Identifier 0 is the `Signaler` base class itself. -/
abbrev CId := Nat

/-- Channel (blinker `NamedSignal`) identifiers. -/
abbrev ChId := Nat

/-- The behaviour of a dynamically created cascade closure. -/
inductive RKind where
  | cascadePadre (target : String)
  | allCascadePadre (target : String)
  deriving DecidableEq

/-- Identity of a receiver registered on a channel: either a user-supplied
function (with its Python `__name__`) or a cascade closure. -/
inductive RecvId where
  | user (hid : Nat) (pyname : String)
  | closure (k : Nat)
  deriving DecidableEq

/-- A class object: its direct base (none for `Signaler` itself) and its
method resolution order restricted to the `Signaler` chain.  `SuperStop` and
`object` are omitted from the stored mro because the code only ever inspects
mro members that are `Signaler` subclasses or carry `signal_namespace`. -/
structure PyClass where
  parent : Option CId
  mro : List CId
  deriving DecidableEq

/-- The process-wide mutable state of the module. -/
structure World where
  classes : List (CId × PyClass)
  signalClasses : List CId
  baseSignals : List (String × ChId)
  chans : List (ChId × List RecvId)
  clos : List (Nat × RKind)
  attrs : List ((CId × String) × Nat)
  nmsp : List (CId × List (String × ChId))
  nextChan : Nat
  nextClos : Nat
  deriving DecidableEq

/-- The module constant `EVENT_TRIGGERED`. -/
def EVENT_TRIGGERED : String := "generic_event"

/-- State right after the module body ran: only `Signaler` exists, no class
is registered, `base_signals` holds the pre-created universal channel. -/
def initWorld : World where
  classes := [(0, { parent := none, mro := [0] })]
  signalClasses := []
  baseSignals := [(EVENT_TRIGGERED, 0)]
  chans := [(0, [])]
  clos := []
  attrs := []
  nmsp := []
  nextChan := 1
  nextClos := 0

/-- Define a new class extending the given parent (Python class statement). -/
def defineClass (w : World) (c : CId) (par : CId) : World :=
  { w with classes := w.classes ++ [(c, { parent := some par, mro := c :: ((lookA par w.classes).map PyClass.mro).getD [] })] }

/-- The stored mro of a class. -/
def mroOf (w : World) (c : CId) : List CId :=
  ((lookA c w.classes).map PyClass.mro).getD []

/-- Direct subclasses in definition order (`cls.__subclasses__()`). -/
def directSubclasses (w : World) (c : CId) : List CId :=
  (w.classes.filter (fun p => p.2.parent = some c)).map Prod.fst

/-- Does the class own a `signal_namespace` entry in its own `__dict__`. -/
def hasOwnNmsp (w : World) (c : CId) : Bool :=
  (lookA c w.nmsp).isSome

/-- The mro member whose `__dict__` provides `signal_namespace` under Python
attribute lookup, if any. -/
def findNmspOwner (w : World) (c : CId) : Option CId :=
  (mroOf w c).find? (hasOwnNmsp w)

/-- `hasattr(cls, "signal_namespace")`. -/
def hasattrNmsp (w : World) (c : CId) : Bool :=
  (findNmspOwner w c).isSome

/-- `getattr(cls, "signal_namespace")` (empty table if the attribute is
missing; callers guard with `hasattrNmsp`). -/
def getattrNmsp (w : World) (c : CId) : List (String × ChId) :=
  match findNmspOwner w c with
  | some o => (lookA o w.nmsp).getD []
  | none => []

/-- Receiver list of a channel. -/
def chanRecvs (w : World) (ch : ChId) : List RecvId :=
  (lookA ch w.chans).getD []

/-- blinker `Signal.connect`: registration is keyed by receiver identity, a
second registration of the same object is a no-op keeping the original
position. -/
def connectRecv (w : World) (ch : ChId) (r : RecvId) : World :=
  let rs := chanRecvs w ch
  if r ∈ rs then w else { w with chans := setA ch (rs ++ [r]) w.chans }

/-- Drop a collected cascade closure from every channel (the weak-reference
cleanup blinker performs when the referent dies). -/
def disconnectClosure (w : World) (k : Nat) : World :=
  { w with chans := w.chans.map (fun p => (p.1, p.2.filter (fun r => r ≠ RecvId.closure k))) }

/-- Create a fresh cascade closure and `setattr` it on the class.  If the
attribute slot already held a closure, that closure loses its only strong
reference and blinker unregisters it everywhere. -/
def setCascadeAttr (w : World) (c : CId) (key : String) (kind : RKind) : World × Nat :=
  let w1 := match lookA (c, key) w.attrs with
    | some kOld => disconnectClosure w kOld
    | none => w
  let k := w1.nextClos
  ({ w1 with clos := setA k kind w1.clos,
             attrs := setA (c, key) k w1.attrs,
             nextClos := k + 1 }, k)

/-- The Python `__name__` of a receiver, as seen by `receivers_for`. -/
def recvName (w : World) : RecvId → String
  | RecvId.user _ n => n
  | RecvId.closure k =>
    match lookA k w.clos with
    | some (RKind.cascadePadre _) => "__cascade_padre"
    | some (RKind.allCascadePadre _) => "__all_cascade_padre"
    | none => ""

/-- Line 182 of the source: is some currently registered receiver of the
channel literally named `cascade`. -/
def isCascading (w : World) (ch : ChId) : Bool :=
  (chanRecvs w ch).any (fun r => recvName w r == "cascade")

/-- `\x7b**var, **tbl\x7d`: merge `tbl` into `var`, `tbl` entries win. -/
def dictMerge (a b : List (String × ChId)) : List (String × ChId) :=
  b.foldl (fun acc p => setA p.1 p.2 acc) a

/-- `_merge_dict_class_vars(clz, "signal_namespace", Signaler)`: walk the mro
most-derived first and merge each `Signaler` subclass effective table into
the accumulator, later (more base) entries overwriting earlier ones. -/
def mergeDictClassVars (w : World) (c : CId) : List (String × ChId) :=
  (mroOf w c).foldl
    (fun var p =>
      if 0 ∈ mroOf w p ∧ hasattrNmsp w p then dictMerge var (getattrNmsp w p) else var)
    []

/-- An argument of the `signals(...)` decorator: a bare string or a
`SignalSchema` object. -/
inductive SchemaArg where
  | str (s : String)
  | sch (s : SignalSchema)
  deriving DecidableEq

/-- Normalisation done at the head of the schema loop: a bare name becomes a
schema with `cascade=False`. -/
def normSchema : SchemaArg → String × Bool
  | SchemaArg.str s => (s, false)
  | SchemaArg.sch s => (s.name, s.cascade)

/-- `namespace.signal(name)` on the decorator-local namespace: look the name
up, creating a fresh channel on a miss. -/
def nsSignal (w : World) (ns : List (String × ChId)) (name : String) :
    World × List (String × ChId) × ChId :=
  match lookA name ns with
  | some ch => (w, ns, ch)
  | none =>
    ({ w with chans := setA w.nextChan [] w.chans, nextChan := w.nextChan + 1 },
     setA name w.nextChan ns, w.nextChan)

/-- Lines 204 and 205 of the source: `if schema.name not in base_signals:
base_signals.signal(schema.name)`. -/
def ensureBaseSignal (w : World) (name : String) : World :=
  if (lookA name w.baseSignals).isSome then w
  else
    { w with chans := setA w.nextChan [] w.chans,
             baseSignals := setA name w.nextChan w.baseSignals,
             nextChan := w.nextChan + 1 }

/-- One iteration of the `for schema in schemata` loop of
`signals_decorator`, threading the world and the decorator-local fresh
namespace. -/
def declStep (c : CId) (st : World × List (String × ChId)) (sa : SchemaArg) :
    World × List (String × ChId) :=
  let name := (normSchema sa).1
  let a := nsSignal st.1 st.2 name
  let w2 :=
    if (normSchema sa).2 then
      let p := setCascadeAttr (ensureBaseSignal a.1 name) c ("_cascade_" ++ name)
        (RKind.cascadePadre name)
      connectRecv p.1 a.2.2 (RecvId.closure p.2)
    else a.1
  let p2 := setCascadeAttr w2 c ("_cascade_" ++ EVENT_TRIGGERED ++ "_" ++ name)
      (RKind.allCascadePadre EVENT_TRIGGERED)
  (connectRecv p2.1 a.2.2 (RecvId.closure p2.2), a.2.1)

/-- The whole schema loop. -/
def declLoop (c : CId) (st : World × List (String × ChId)) (l : List SchemaArg) :
    World × List (String × ChId) :=
  l.foldl (declStep c) st

/-- `signal_classes.add(cls)`. -/
def registerClass (w : World) (c : CId) : World :=
  { w with signalClasses :=
    if c ∈ w.signalClasses then w.signalClasses else w.signalClasses ++ [c] }

/-- Lines 176 to 186 of the source: when a `signal_namespace` attribute is
reachable, extend the explicit arguments with one re-derived schema per
inherited name, its cascade flag computed by the `isCascading` probe. -/
def derivedSchemata (w : World) (c : CId) (args : List SchemaArg) : List SchemaArg :=
  if hasattrNmsp w c then
    args ++ (mergeDictClassVars w c).map
      (fun p => SchemaArg.sch { oid := 0, name := p.1, cascade := isCascading w p.2 })
  else args

/-- `signals(*args)(cls)`: register the class, re-derive inherited schemas,
then run the schema loop on a fresh namespace and install the result as the
class own `signal_namespace`. -/
def signalsDecorator (w : World) (c : CId) (args : List SchemaArg) : World :=
  let w1 := registerClass w c
  let st := declLoop c (w1, []) (derivedSchemata w1 c args)
  { st.1 with nmsp := setA c st.2 st.1.nmsp }

/-- `init_class_signals`: lazily declare with no arguments unless the class
is already registered. -/
def initClassSignals (w : World) (c : CId) : World :=
  if c ∈ w.signalClasses then w else signalsDecorator w c []

/-- The error values raised by the module (each constructor is one `raise`
site; the first three are `ValueError`, the last is the `TypeError` Python
raises for a duplicate keyword argument). -/
inductive PyErr where
  | namespaceNotDefined (c : CId)
  | signalNotDefinedOnClass (c : CId)
  | signalNotExisting (c : CId)
  | needSubclassTarget
  | dupKeyword (k : String)
  deriving DecidableEq

/-- `Signaler.signals()`: the effective table, or the No-Namespace error. -/
def signalsFn (w : World) (c : CId) : Except PyErr (List (String × ChId)) :=
  if hasattrNmsp w c then Except.ok (getattrNmsp w c) else Except.error (PyErr.namespaceNotDefined c)

/-- `connect_base_signal`. -/
def connectBaseSignal (w : World) (name : String) (fn : RecvId) : World :=
  match lookA name w.baseSignals with
  | some ch => connectRecv w ch fn
  | none =>
    let ch := w.nextChan
    let w1 := { w with chans := setA ch [] w.chans,
                       baseSignals := setA name ch w.baseSignals,
                       nextChan := ch + 1 }
    connectRecv w1 ch fn

/-- `connect_class_signal`: lazy declaration attempt, then lookup, then
either the Signal-Not-Defined error or registration. -/
def connectClassSignal (w : World) (c : CId) (name : String) (fn : RecvId) :
    World × Except PyErr Unit :=
  let w1 := initClassSignals w c
  match signalsFn w1 c with
  | Except.error e => (w1, Except.error e)
  | Except.ok tbl =>
    match lookA name tbl with
    | none => (w1, Except.error (PyErr.signalNotDefinedOnClass c))
    | some ch => (connectRecv w1 ch fn, Except.ok ())

/-- Keyword payload of an emission: keys to opaque values. -/
abbrev Payload := List (String × Nat)

/-- One synchronous handler invocation. -/
structure Invoc where
  recv : RecvId
  sender : Nat
  payload : Payload
  deriving DecidableEq

/-- blinker `Signal.send`: call every registered receiver in registration
order; a cascade closure immediately re-sends on its target base channel.
The fuel bounds the nesting depth; cascade chains in this module have depth
at most two (class channel to base channel), so any fuel of at least three
computes the exact log. -/
def sendChan (w : World) : Nat → ChId → Nat → Payload → List Invoc
  | 0, _, _, _ => []
  | fuel + 1, ch, sender, p =>
    (chanRecvs w ch).foldl
      (fun log r =>
        log ++ [{ recv := r, sender := sender, payload := p }] ++
          (match r with
           | RecvId.user _ _ => []
           | RecvId.closure k =>
             match lookA k w.clos with
             | some (RKind.cascadePadre t) =>
               match lookA t w.baseSignals with
               | some bch => sendChan w fuel bch sender p
               | none => []
             | some (RKind.allCascadePadre t) =>
               match lookA t w.baseSignals with
               | some bch => sendChan w fuel bch sender p
               | none => []
             | none => []))
      []

/-- `Signaler.send_cls_signal`: condition gate, sender defaulting, the
membership check with one lazy declaration attempt, then the send with the
schema injected into the payload under the key `signal` (a payload that
already carries that key makes Python raise the duplicate-keyword
`TypeError` when the call is built, before any receiver runs). -/
def sendClsSignal (w : World) (fuel : Nat) (c : CId) (sig : SignalSchema)
    (sender : Option Nat) (condition : Bool) (kwargs : Payload) :
    World × Except PyErr (List Invoc) :=
  if condition then
    let s := sender.getD c
    match signalsFn w c with
    | Except.error e => (w, Except.error e)
    | Except.ok tbl =>
      let afterCheck : World × Except PyErr (List (String × ChId)) :=
        if (lookA sig.name tbl).isSome then (w, Except.ok tbl)
        else
          let w1 := initClassSignals w c
          match signalsFn w1 c with
          | Except.error e => (w1, Except.error e)
          | Except.ok tbl1 =>
            if (lookA sig.name tbl1).isSome then (w1, Except.ok tbl1)
            else (w1, Except.error (PyErr.signalNotExisting c))
      match afterCheck with
      | (w1, Except.error e) => (w1, Except.error e)
      | (w1, Except.ok tbl1) =>
        if kwargs.any (fun kv => kv.1 = "signal") then
          (w1, Except.error (PyErr.dupKeyword "signal"))
        else
          match lookA sig.name tbl1 with
          | some ch => (w1, Except.ok (sendChan w1 fuel ch s (kwargs ++ [("signal", sig.oid)])))
          | none => (w1, Except.error (PyErr.signalNotExisting c))
  else (w, Except.ok [])

/-- `Signaler.send_signal`: default the sender to the instance and delegate
to the class-level emission. -/
def sendSignal (w : World) (fuel : Nat) (c : CId) (selfId : Nat) (sig : SignalSchema)
    (sender : Option Nat) (condition : Bool) (kwargs : Payload) :
    World × Except PyErr (List Invoc) :=
  sendClsSignal w fuel c sig (some (sender.getD selfId)) condition kwargs

/-- First loop of `connect_subclasses_fn`: connect each listed class and
accumulate its direct subclasses (the `set.update` dedupes). -/
def csLoop1 (w : World) (cs : List CId) (name : String) (fn : RecvId) (acc : List CId) :
    World × List CId × Except PyErr Unit :=
  match cs with
  | [] => (w, acc, Except.ok ())
  | c :: rest =>
    match connectClassSignal w c name fn with
    | (w1, Except.error e) => (w1, acc, Except.error e)
    | (w1, Except.ok _) =>
      csLoop1 w1 rest name fn (acc ++ (directSubclasses w1 c).filter (fun s => s ∉ acc))

/-- Second loop of `connect_subclasses_fn`: connect every collected
subclass. -/
def csLoop2 (w : World) (cs : List CId) (name : String) (fn : RecvId) :
    World × Except PyErr Unit :=
  match cs with
  | [] => (w, Except.ok ())
  | c :: rest =>
    match connectClassSignal w c name fn with
    | (w1, Except.error e) => (w1, Except.error e)
    | (w1, Except.ok _) => csLoop2 w1 rest name fn

/-- `connect_subclasses_fn`: connect the given classes, then the snapshot of
their current subclasses, then recurse on that snapshot.  The fuel only
bounds the recursion depth; the real recursion descends one hierarchy level
per call, so any fuel above the class count is exact. -/
def connectSubclassesFn : Nat → World → List CId → String → RecvId →
    World × Except PyErr Unit
  | 0, w, _, _, _ => (w, Except.ok ())
  | fuel + 1, w, cs, name, fn =>
    if cs = [] then (w, Except.error PyErr.needSubclassTarget)
    else
      match csLoop1 w cs name fn [] with
      | (w1, _, Except.error e) => (w1, Except.error e)
      | (w1, subs, Except.ok _) =>
        match csLoop2 w1 subs name fn with
        | (w2, Except.error e) => (w2, Except.error e)
        | (w2, Except.ok _) =>
          if subs = [] then (w2, Except.ok ())
          else connectSubclassesFn fuel w2 subs name fn

/-- The `connect_subclasses` decorator applied to a handler. -/
def connectSubclasses (w : World) (cs : List CId) (name : String) (fn : RecvId) :
    World × Except PyErr Unit :=
  connectSubclassesFn (w.classes.length + 1) w cs name fn

/-- Number of invocations of a given receiver in a log. -/
def countInvoc (r : RecvId) (log : List Invoc) : Nat :=
  (log.filter (fun i => i.recv == r)).length

/-- The invocation log of an emission result (empty on error: an aborted
emission invoked nobody). -/
def logOf : Except PyErr (List Invoc) → List Invoc
  | Except.ok l => l
  | Except.error _ => []

/-! ### Basic lemmas about the association-list primitives -/

theorem lookA_setA {α β : Type} [DecidableEq α] (k k2 : α) (v : β) (l : List (α × β)) :
    lookA k (setA k2 v l) = if k = k2 then some v else lookA k l := by
  induction l with
  | nil => simp [lookA, setA]
  | cons p rest ih =>
    obtain ⟨a, b⟩ := p
    by_cases h2 : k2 = a
    · subst h2
      by_cases h1 : k = k2 <;> simp [lookA, setA, h1]
    · by_cases h1 : k = a
      · have hk2 : ¬ k = k2 := fun h => h2 (h.symm.trans h1)
        have ha : ¬ a = k2 := fun hh => h2 hh.symm
        simp [lookA, setA, h2, h1, hk2, ha]
      · simp [lookA, setA, h2, h1, ih]

theorem mem_setA {α β : Type} [DecidableEq α] (k : α) (v : β) (l : List (α × β)) (p : α × β) :
    p ∈ setA k v l → p ∈ l ∨ p = (k, v) := by
  induction l with
  | nil =>
    intro hp
    simp only [setA, List.mem_singleton] at hp
    exact Or.inr hp
  | cons q rest ih =>
    obtain ⟨a, b⟩ := q
    by_cases h : k = a
    · subst h
      simp only [setA, if_pos rfl]
      intro hp
      rcases List.mem_cons.mp hp with h1 | h1
      · exact Or.inr h1
      · exact Or.inl (List.mem_cons_of_mem _ h1)
    · simp only [setA, if_neg h]
      intro hp
      rcases List.mem_cons.mp hp with h1 | h1
      · exact Or.inl (by simp [h1])
      · rcases ih h1 with h2 | h2
        · exact Or.inl (List.mem_cons_of_mem _ h2)
        · exact Or.inr h2

theorem lookA_mem {α β : Type} [DecidableEq α] (k : α) (v : β) (l : List (α × β)) :
    lookA k l = some v → (k, v) ∈ l := by
  induction l with
  | nil => simp [lookA]
  | cons q rest ih =>
    obtain ⟨a, b⟩ := q
    intro h
    by_cases hk : k = a
    · subst hk
      simp [lookA] at h
      exact List.mem_cons.mpr (Or.inl (by simp [h]))
    · simp only [lookA, if_neg hk] at h
      exact List.mem_cons_of_mem _ (ih h)

theorem lookA_map {α β γ : Type} [DecidableEq α] (k : α) (g : β → γ) (l : List (α × β)) :
    lookA k (l.map (fun p => (p.1, g p.2))) = (lookA k l).map g := by
  induction l with
  | nil => simp [lookA]
  | cons q rest ih =>
    by_cases hk : k = q.1 <;> simp [lookA, hk, ih]

/-! ### Frame and preservation lemmas for the declaration loop

The schema loop of `signals_decorator` touches only channels, the base
namespace, closures, attribute slots and the two allocation counters; it
never changes the class table, the registry or any installed namespace, and
it never adds or removes a user handler from any channel. -/

/-- Channel identifiers held in the store are below the allocation counter. -/
def ChanFresh (w : World) : Prop := ∀ p ∈ w.chans, p.1 < w.nextChan

/-- Every channel of the decorator-local namespace is in the store. -/
def NsValid (w : World) (ns : List (String × ChId)) : Prop :=
  ∀ p ∈ ns, (lookA p.2 w.chans).isSome = true

theorem chanRecvs_setA (w : World) (ch ch2 : ChId) (rs : List RecvId) :
    chanRecvs { w with chans := setA ch rs w.chans } ch2 =
      if ch2 = ch then rs else chanRecvs w ch2 := by
  by_cases h : ch2 = ch <;> simp [chanRecvs, lookA_setA, h]

theorem chanRecvs_disconnect (w : World) (k : Nat) (ch : ChId) :
    chanRecvs (disconnectClosure w k) ch =
      (chanRecvs w ch).filter (fun r => r ≠ RecvId.closure k) := by
  unfold chanRecvs disconnectClosure
  rw [show (fun (p : ChId × List RecvId) => (p.1, p.2.filter (fun r => r ≠ RecvId.closure k))) =
      (fun p => (p.1, (fun rs => rs.filter (fun r => r ≠ RecvId.closure k)) p.2)) from rfl]
  rw [lookA_map]
  cases lookA ch w.chans <;> simp

theorem userMem_filter_closure (rs : List RecvId) (k hid : Nat) (hn : String) :
    (RecvId.user hid hn ∈ rs.filter (fun r => r ≠ RecvId.closure k)) ↔
      RecvId.user hid hn ∈ rs := by
  constructor
  · intro h
    exact (List.mem_filter.mp h).1
  · intro h
    exact List.mem_filter.mpr ⟨h, by simp⟩

theorem connectRecv_userMem (w : World) (ch ch2 : ChId) (k hid : Nat) (hn : String) :
    (RecvId.user hid hn ∈ chanRecvs (connectRecv w ch (RecvId.closure k)) ch2) ↔
      RecvId.user hid hn ∈ chanRecvs w ch2 := by
  unfold connectRecv
  by_cases hmem : RecvId.closure k ∈ chanRecvs w ch
  · simp [hmem]
  · simp only [hmem, if_false]
    rw [chanRecvs_setA]
    by_cases h : ch2 = ch <;> simp [h]

/-- The three world fields the schema loop never writes. -/
def FrameEq (w w0 : World) : Prop :=
  w.classes = w0.classes ∧ w.signalClasses = w0.signalClasses ∧ w.nmsp = w0.nmsp

theorem frameEq_trans {a b c : World} (h1 : FrameEq a b) (h2 : FrameEq b c) : FrameEq a c :=
  ⟨h1.1.trans h2.1, h1.2.1.trans h2.2.1, h1.2.2.trans h2.2.2⟩

theorem connectRecv_frame (w : World) (ch : ChId) (r : RecvId) :
    FrameEq (connectRecv w ch r) w := by
  unfold connectRecv
  dsimp only
  split
  · exact ⟨rfl, rfl, rfl⟩
  · exact ⟨rfl, rfl, rfl⟩

theorem setCascadeAttr_frame (w : World) (c : CId) (key : String) (kind : RKind) :
    FrameEq (setCascadeAttr w c key kind).1 w := by
  unfold setCascadeAttr disconnectClosure
  dsimp only
  split
  · exact ⟨rfl, rfl, rfl⟩
  · exact ⟨rfl, rfl, rfl⟩

theorem ensureBaseSignal_frame (w : World) (name : String) :
    FrameEq (ensureBaseSignal w name) w := by
  unfold ensureBaseSignal
  split
  · exact ⟨rfl, rfl, rfl⟩
  · exact ⟨rfl, rfl, rfl⟩

theorem nsSignal_frame (w : World) (ns : List (String × ChId)) (name : String) :
    FrameEq (nsSignal w ns name).1 w := by
  unfold nsSignal
  split
  · exact ⟨rfl, rfl, rfl⟩
  · exact ⟨rfl, rfl, rfl⟩

/-- One schema-loop iteration leaves classes, registry and installed
namespaces alone. -/
theorem declStep_frame (c : CId) (st : World × List (String × ChId)) (sa : SchemaArg) :
    FrameEq (declStep c st sa).1 st.1 := by
  unfold declStep
  dsimp only
  apply frameEq_trans (connectRecv_frame _ _ _)
  apply frameEq_trans (setCascadeAttr_frame _ _ _ _)
  by_cases hc : (normSchema sa).2 = true
  · rw [if_pos hc]
    apply frameEq_trans (connectRecv_frame _ _ _)
    apply frameEq_trans (setCascadeAttr_frame _ _ _ _)
    apply frameEq_trans (ensureBaseSignal_frame _ _)
    exact nsSignal_frame _ _ _
  · rw [if_neg hc]
    exact nsSignal_frame _ _ _

/-- The whole schema loop leaves classes, registry and installed namespaces
alone. -/
theorem declLoop_frame (c : CId) (l : List SchemaArg) (st : World × List (String × ChId)) :
    FrameEq (declLoop c st l).1 st.1 := by
  induction l generalizing st with
  | nil => exact ⟨rfl, rfl, rfl⟩
  | cons sa rest ih =>
    exact frameEq_trans (ih (declStep c st sa)) (declStep_frame c st sa)

/-- User-handler registrations seen identically in two worlds. -/
def UserPres (w w0 : World) : Prop :=
  ∀ (hid : Nat) (hn : String) (ch : ChId),
    (RecvId.user hid hn ∈ chanRecvs w ch) ↔ RecvId.user hid hn ∈ chanRecvs w0 ch

theorem userPres_trans {a b c : World} (h1 : UserPres a b) (h2 : UserPres b c) : UserPres a c :=
  fun hid hn ch => (h1 hid hn ch).trans (h2 hid hn ch)

/-- Existing channels keep existing. -/
def KeysMono (w w0 : World) : Prop :=
  ∀ ch : ChId, (lookA ch w0.chans).isSome = true → (lookA ch w.chans).isSome = true

theorem keysMono_trans {a b c : World} (h1 : KeysMono a b) (h2 : KeysMono b c) : KeysMono a c :=
  fun ch h => h1 ch (h2 ch h)

theorem lookA_isSome_lt {w : World} (hF : ChanFresh w) {ch : ChId}
    (h : (lookA ch w.chans).isSome = true) : ch < w.nextChan := by
  rcases Option.isSome_iff_exists.mp h with ⟨v, hv⟩
  exact hF (ch, v) (lookA_mem ch v w.chans hv)

theorem fresh_lookA_none {w : World} (hF : ChanFresh w) : lookA w.nextChan w.chans = none := by
  cases h : lookA w.nextChan w.chans with
  | none => rfl
  | some v => exact absurd (hF (w.nextChan, v) (lookA_mem _ _ _ h)) (lt_irrefl _)

/-- Allocating the fresh channel `w.nextChan` keeps the invariants. -/
theorem alloc_inv (w : World) (hF : ChanFresh w) (w1 : World)
    (hchans : w1.chans = setA w.nextChan [] w.chans) (hnext : w1.nextChan = w.nextChan + 1) :
    ChanFresh w1 ∧ KeysMono w1 w ∧ UserPres w1 w := by
  refine ⟨?_, ?_, ?_⟩
  · intro p hp
    rw [hnext]
    rcases mem_setA _ _ _ _ (hchans ▸ hp) with h | h
    · exact Nat.lt_succ_of_lt (hF p h)
    · rw [h]
      exact Nat.lt_succ_self _
  · intro ch h
    rw [hchans, lookA_setA]
    by_cases hc : ch = w.nextChan <;> simp [hc, h]
  · intro hid hn ch
    unfold chanRecvs
    rw [hchans, lookA_setA]
    by_cases hc : ch = w.nextChan
    · subst hc
      rw [if_pos rfl, fresh_lookA_none hF]
      simp
    · rw [if_neg hc]

/-- `disconnectClosure` keeps the invariants. -/
theorem disconnect_inv (w : World) (k : Nat) (hF : ChanFresh w) :
    ChanFresh (disconnectClosure w k) ∧ KeysMono (disconnectClosure w k) w ∧
      UserPres (disconnectClosure w k) w := by
  refine ⟨?_, ?_, ?_⟩
  · intro p hp
    unfold disconnectClosure at hp
    dsimp only at hp
    rcases List.mem_map.mp hp with ⟨q, hq, hpq⟩
    have : p.1 = q.1 := by rw [← hpq]
    rw [show (disconnectClosure w k).nextChan = w.nextChan from rfl] at *
    rw [this]
    exact hF q hq
  · intro ch h
    unfold disconnectClosure
    dsimp only
    rw [show (fun (p : ChId × List RecvId) => (p.1, p.2.filter (fun r => r ≠ RecvId.closure k))) =
        (fun p => (p.1, (fun rs => rs.filter (fun r => r ≠ RecvId.closure k)) p.2)) from rfl]
    rw [lookA_map]
    simpa using h
  · intro hid hn ch
    rw [chanRecvs_disconnect]
    exact userMem_filter_closure _ _ _ _

/-- `setCascadeAttr` keeps the invariants. -/
theorem setCascadeAttr_inv (w : World) (c : CId) (key : String) (kind : RKind)
    (hF : ChanFresh w) :
    ChanFresh (setCascadeAttr w c key kind).1 ∧ KeysMono (setCascadeAttr w c key kind).1 w ∧
      UserPres (setCascadeAttr w c key kind).1 w := by
  unfold setCascadeAttr
  dsimp only
  cases hl : lookA (c, key) w.attrs with
  | none =>
    refine ⟨hF, fun ch h => h, fun hid hn ch => Iff.rfl⟩
  | some kOld =>
    have h := disconnect_inv w kOld hF
    exact ⟨h.1, h.2.1, h.2.2⟩

/-- `connectRecv` keeps the invariants when the channel exists. -/
theorem connectRecv_inv (w : World) (ch : ChId) (r : RecvId) (hF : ChanFresh w)
    (hch : (lookA ch w.chans).isSome = true) :
    ChanFresh (connectRecv w ch r) ∧ KeysMono (connectRecv w ch r) w := by
  unfold connectRecv
  dsimp only
  split
  · exact ⟨hF, fun ch2 h => h⟩
  · constructor
    · intro p hp
      rcases mem_setA _ _ _ _ hp with h | h
      · exact hF p h
      · rw [h]
        exact lookA_isSome_lt hF hch
    · intro ch2 h
      rw [lookA_setA]
      by_cases hc : ch2 = ch <;> simp [hc, h]

/-- `ensureBaseSignal` keeps the invariants. -/
theorem ensureBaseSignal_inv (w : World) (name : String) (hF : ChanFresh w) :
    ChanFresh (ensureBaseSignal w name) ∧ KeysMono (ensureBaseSignal w name) w ∧
      UserPres (ensureBaseSignal w name) w := by
  unfold ensureBaseSignal
  split
  · exact ⟨hF, fun ch h => h, fun hid hn ch => Iff.rfl⟩
  · exact alloc_inv w hF
      { w with chans := setA w.nextChan [] w.chans,
               baseSignals := setA name w.nextChan w.baseSignals,
               nextChan := w.nextChan + 1 } rfl rfl

/-- `nsSignal` keeps the invariants and returns a stored channel. -/
theorem nsSignal_inv (w : World) (ns : List (String × ChId)) (name : String)
    (hF : ChanFresh w) (hN : NsValid w ns) :
    ChanFresh (nsSignal w ns name).1 ∧ KeysMono (nsSignal w ns name).1 w ∧
      UserPres (nsSignal w ns name).1 w ∧
      NsValid (nsSignal w ns name).1 (nsSignal w ns name).2.1 ∧
      (lookA (nsSignal w ns name).2.2 (nsSignal w ns name).1.chans).isSome = true := by
  unfold nsSignal
  cases hl : lookA name ns with
  | some ch =>
    dsimp only
    exact ⟨hF, fun ch2 h => h, fun hid hn ch2 => Iff.rfl, hN, hN (name, ch) (lookA_mem _ _ _ hl)⟩
  | none =>
    dsimp only
    have ha := alloc_inv w hF
      { w with chans := setA w.nextChan [] w.chans, nextChan := w.nextChan + 1 } rfl rfl
    refine ⟨ha.1, ha.2.1, ha.2.2, ?_, ?_⟩
    · intro p hp
      rcases mem_setA _ _ _ _ hp with h | h
      · exact ha.2.1 p.2 (hN p h)
      · rw [h]
        dsimp only
        rw [lookA_setA, if_pos rfl]
        rfl
    · rw [lookA_setA, if_pos rfl]
      rfl

theorem nsValid_mono {w w0 : World} {ns : List (String × ChId)}
    (h : NsValid w0 ns) (hm : KeysMono w w0) : NsValid w ns :=
  fun p hp => hm p.2 (h p hp)

theorem connectRecv_userPres (w : World) (ch : ChId) (k : Nat) :
    UserPres (connectRecv w ch (RecvId.closure k)) w :=
  fun hid hn ch2 => connectRecv_userMem w ch ch2 k hid hn

/-- One schema-loop iteration keeps freshness, namespace validity and the
set of user-handler registrations. -/
theorem declStep_inv (c : CId) (st : World × List (String × ChId)) (sa : SchemaArg)
    (hF : ChanFresh st.1) (hN : NsValid st.1 st.2) :
    ChanFresh (declStep c st sa).1 ∧ NsValid (declStep c st sa).1 (declStep c st sa).2 ∧
      UserPres (declStep c st sa).1 st.1 := by
  obtain ⟨hF1, hK1, hU1, hN1, hch1⟩ := nsSignal_inv st.1 st.2 (normSchema sa).1 hF hN
  unfold declStep
  dsimp only
  set nm := (normSchema sa).1 with hnm
  set a := nsSignal st.1 st.2 nm with hA
  set ch := a.2.2 with hch
  by_cases hc : (normSchema sa).2 = true
  · rw [if_pos hc]
    set wb := ensureBaseSignal a.1 nm with hB
    obtain ⟨hFb, hKb, hUb⟩ := ensureBaseSignal_inv a.1 nm hF1
    set p := setCascadeAttr wb c ("_cascade_" ++ nm) (RKind.cascadePadre nm) with hP
    obtain ⟨hFc, hKc, hUc⟩ :=
      setCascadeAttr_inv wb c ("_cascade_" ++ nm) (RKind.cascadePadre nm) hFb
    have hch2 : (lookA ch p.1.chans).isSome = true := hKc ch (hKb ch hch1)
    set wd := connectRecv p.1 ch (RecvId.closure p.2) with hD
    obtain ⟨hFd, hKd⟩ := connectRecv_inv p.1 ch (RecvId.closure p.2) hFc hch2
    have hUd : UserPres wd p.1 := connectRecv_userPres p.1 ch p.2
    set p2 := setCascadeAttr wd c ("_cascade_" ++ EVENT_TRIGGERED ++ "_" ++ nm)
      (RKind.allCascadePadre EVENT_TRIGGERED) with hP2
    obtain ⟨hFe, hKe, hUe⟩ := setCascadeAttr_inv wd c
      ("_cascade_" ++ EVENT_TRIGGERED ++ "_" ++ nm) (RKind.allCascadePadre EVENT_TRIGGERED) hFd
    have hch3 : (lookA ch p2.1.chans).isSome = true := hKe ch (hKd ch hch2)
    obtain ⟨hFf, hKf⟩ := connectRecv_inv p2.1 ch (RecvId.closure p2.2) hFe hch3
    have hUf : UserPres (connectRecv p2.1 ch (RecvId.closure p2.2)) p2.1 :=
      connectRecv_userPres p2.1 ch p2.2
    refine ⟨hFf, ?_, ?_⟩
    · exact nsValid_mono hN1
        (keysMono_trans hKf (keysMono_trans hKe (keysMono_trans hKd (keysMono_trans hKc hKb))))
    · exact userPres_trans hUf (userPres_trans hUe (userPres_trans hUd
        (userPres_trans hUc (userPres_trans hUb hU1))))
  · rw [if_neg hc]
    set p2 := setCascadeAttr a.1 c ("_cascade_" ++ EVENT_TRIGGERED ++ "_" ++ nm)
      (RKind.allCascadePadre EVENT_TRIGGERED) with hP2
    obtain ⟨hFe, hKe, hUe⟩ := setCascadeAttr_inv a.1 c
      ("_cascade_" ++ EVENT_TRIGGERED ++ "_" ++ nm) (RKind.allCascadePadre EVENT_TRIGGERED) hF1
    have hch3 : (lookA ch p2.1.chans).isSome = true := hKe ch hch1
    obtain ⟨hFf, hKf⟩ := connectRecv_inv p2.1 ch (RecvId.closure p2.2) hFe hch3
    have hUf : UserPres (connectRecv p2.1 ch (RecvId.closure p2.2)) p2.1 :=
      connectRecv_userPres p2.1 ch p2.2
    refine ⟨hFf, ?_, ?_⟩
    · exact nsValid_mono hN1 (keysMono_trans hKf hKe)
    · exact userPres_trans hUf (userPres_trans hUe hU1)

/-- The whole schema loop keeps freshness and user-handler registrations. -/
theorem declLoop_inv (c : CId) (l : List SchemaArg) (st : World × List (String × ChId))
    (hF : ChanFresh st.1) (hN : NsValid st.1 st.2) :
    ChanFresh (declLoop c st l).1 ∧ NsValid (declLoop c st l).1 (declLoop c st l).2 ∧
      UserPres (declLoop c st l).1 st.1 := by
  induction l generalizing st with
  | nil => exact ⟨hF, hN, fun hid hn ch => Iff.rfl⟩
  | cons sa rest ih =>
    obtain ⟨h1, h2, h3⟩ := declStep_inv c st sa hF hN
    obtain ⟨g1, g2, g3⟩ := ih (declStep c st sa) h1 h2
    exact ⟨g1, g2, userPres_trans g3 h3⟩

/-- The declaration decorator keeps freshness and never adds or removes a
user handler from any channel. -/
theorem signalsDecorator_inv (w : World) (c : CId) (args : List SchemaArg)
    (hF : ChanFresh w) :
    ChanFresh (signalsDecorator w c args) ∧ UserPres (signalsDecorator w c args) w := by
  unfold signalsDecorator
  dsimp only
  have h := declLoop_inv c (derivedSchemata (registerClass w c) c args) (registerClass w c, [])
    hF (fun p hp => absurd hp (List.not_mem_nil p))
  exact ⟨h.1, h.2.2⟩

/-- Lazy initialisation keeps freshness and user registrations. -/
theorem initClassSignals_inv (w : World) (c : CId) (hF : ChanFresh w) :
    ChanFresh (initClassSignals w c) ∧ UserPres (initClassSignals w c) w := by
  unfold initClassSignals
  split
  · exact ⟨hF, fun hid hn ch => Iff.rfl⟩
  · exact signalsDecorator_inv w c [] hF

/-- The decorator leaves the class table unchanged. -/
theorem signalsDecorator_classes (w : World) (c : CId) (args : List SchemaArg) :
    (signalsDecorator w c args).classes = w.classes := by
  unfold signalsDecorator
  dsimp only
  exact (declLoop_frame c (derivedSchemata (registerClass w c) c args) (registerClass w c, [])).1

/-- After the decorator the class is registered. -/
theorem signalsDecorator_mem_signalClasses (w : World) (c : CId) (args : List SchemaArg) :
    c ∈ (signalsDecorator w c args).signalClasses := by
  unfold signalsDecorator
  dsimp only
  rw [(declLoop_frame c (derivedSchemata (registerClass w c) c args) (registerClass w c, [])).2.1]
  unfold registerClass
  dsimp only
  split
  · assumption
  · exact List.mem_append_right _ (List.mem_singleton.mpr rfl)

/-- After the decorator the class owns a namespace. -/
theorem signalsDecorator_hasOwn (w : World) (c : CId) (args : List SchemaArg) :
    hasOwnNmsp (signalsDecorator w c args) c = true := by
  unfold signalsDecorator hasOwnNmsp
  dsimp only
  rw [lookA_setA, if_pos rfl]
  rfl

/-- The decorator changes no mro. -/
theorem mroOf_signalsDecorator (w : World) (c c2 : CId) (args : List SchemaArg) :
    mroOf (signalsDecorator w c args) c2 = mroOf w c2 := by
  unfold mroOf
  rw [signalsDecorator_classes]

/-! ### Further support lemmas -/

theorem lookA_none_of_not_mem_keys {α β : Type} [DecidableEq α] (k : α) (l : List (α × β))
    (h : k ∉ l.map Prod.fst) : lookA k l = none := by
  induction l with
  | nil => rfl
  | cons q rest ih =>
    simp only [List.map_cons, List.mem_cons] at h
    push_neg at h
    simp only [lookA, if_neg h.1]
    exact ih h.2

/-- Python dict merge `\x7b**a, **b\x7d` resolves every key from `b` first and
falls back to `a`: the later (second) operand wins on collision. -/
theorem lookA_dictMerge (k : String) (a b : List (String × ChId))
    (hb : (b.map Prod.fst).Nodup) :
    lookA k (dictMerge a b) = (lookA k b).orElse (fun _ => lookA k a) := by
  induction b generalizing a with
  | nil => simp [dictMerge, lookA]
  | cons q rest ih =>
    obtain ⟨k1, v1⟩ := q
    simp only [List.map_cons, List.nodup_cons] at hb
    have step : dictMerge a ((k1, v1) :: rest) = dictMerge (setA k1 v1 a) rest := rfl
    rw [step, ih (setA k1 v1 a) hb.2]
    by_cases hk : k = k1
    · subst hk
      rw [lookA_none_of_not_mem_keys k rest hb.1]
      simp [lookA, lookA_setA]
    · simp only [lookA, if_neg hk, lookA_setA]

/-! ### Claim C9: schema equality and hashing -/

/-- C9 counterexample: the claim says two `SignalSchema` values are equal if
and only if their names are equal; two distinct schema objects sharing the
name `evt` (with different cascade flags) have equal names but are unequal
under the Python equality of the class, which is inherited object identity
because `SignalSchema` defines `__hash__` but not `__eq__`. -/
theorem c9_ce_equality_is_identity :
    ¬ ((SignalSchema.pyEq { oid := 0, name := "evt", cascade := true }
        { oid := 1, name := "evt", cascade := false } = true) ↔
      ({ oid := 0, name := "evt", cascade := true } : SignalSchema).name =
        ({ oid := 1, name := "evt", cascade := false } : SignalSchema).name) := by
  decide

/-- C9 (amended): `SignalSchema` hashes by name, so equal names give equal
hashes, but equality is object identity: `s == t` holds exactly when `s` and
`t` are the same object, regardless of names and cascade flags. -/
theorem c9_hash_by_name_equality_by_identity (s t : SignalSchema) :
    (SignalSchema.pyEq s t = true ↔ s.oid = t.oid) ∧
      (s.name = t.name → SignalSchema.pyHash s = SignalSchema.pyHash t) := by
  constructor
  · simp [SignalSchema.pyEq]
  · intro h
    simp [SignalSchema.pyHash, h]

/-- C9 witness: instantiating the amended statement at two concrete schemas
sharing a name. -/
theorem c9_hash_by_name_equality_by_identity_witness :
    SignalSchema.pyHash { oid := 0, name := "evt", cascade := true } =
      SignalSchema.pyHash { oid := 1, name := "evt", cascade := false } :=
  (c9_hash_by_name_equality_by_identity
    { oid := 0, name := "evt", cascade := true }
    { oid := 1, name := "evt", cascade := false }).2 rfl

/-! ### Claim C2: cascade status across re-declaration -/

/-- C2: the re-derivation probe of `signals_decorator` looks for a receiver
whose `__name__` is `cascade`, but the cascade receivers the decorator
itself registers are named `__cascade_padre` and `__all_cascade_padre`, so
the probe never recognises them.  Declaring `A` with schema `evt`
cascading and then declaring `B(A)` re-derives `evt` with `cascade=False`:
the probe on the inherited channel yields `false`, the `evt` channel of `B`
carries only the universal-cascade closure and no base-cascade closure, and
a handler on the base-level `evt` channel sees an emission on `A` but not
an emission on `B`. -/
theorem c2_cascade_rederivation_never_fires :
    isCascading (signalsDecorator (defineClass initWorld 1 0) 1
      [SchemaArg.sch { oid := 3, name := "evt", cascade := true }]) 1 = false ∧
    lookA "evt" ((lookA 2 (signalsDecorator (defineClass (signalsDecorator
      (defineClass initWorld 1 0) 1 [SchemaArg.sch { oid := 3, name := "evt", cascade := true }])
      2 1) 2 []).nmsp).getD []) = some 3 ∧
    chanRecvs (signalsDecorator (defineClass (signalsDecorator (defineClass initWorld 1 0) 1
      [SchemaArg.sch { oid := 3, name := "evt", cascade := true }]) 2 1) 2 []) 3 =
      [RecvId.closure 2] ∧
    lookA 2 (signalsDecorator (defineClass (signalsDecorator (defineClass initWorld 1 0) 1
      [SchemaArg.sch { oid := 3, name := "evt", cascade := true }]) 2 1) 2 []).clos =
      some (RKind.allCascadePadre "generic_event") ∧
    countInvoc (RecvId.user 7 "on_evt") (logOf (sendClsSignal (connectBaseSignal
      (signalsDecorator (defineClass (signalsDecorator (defineClass initWorld 1 0) 1
        [SchemaArg.sch { oid := 3, name := "evt", cascade := true }]) 2 1) 2 [])
      "evt" (RecvId.user 7 "on_evt")) 5 2 { oid := 9, name := "evt", cascade := true }
      none true []).2) = 0 ∧
    countInvoc (RecvId.user 7 "on_evt") (logOf (sendClsSignal (connectBaseSignal
      (signalsDecorator (defineClass (signalsDecorator (defineClass initWorld 1 0) 1
        [SchemaArg.sch { oid := 3, name := "evt", cascade := true }]) 2 1) 2 [])
      "evt" (RecvId.user 7 "on_evt")) 5 1 { oid := 9, name := "evt", cascade := true }
      none true []).2) = 1 := by
  decide

/-! ### Claim C8: the No-Namespace error on introspection -/

/-- C8 counterexample: class 2 extends the declared class 1 but was itself
never declared (it is not in the registry); the claim says introspection on
it must raise No-Namespace, yet `signals()` finds the inherited attribute
and returns the table of class 1 without error. -/
theorem c8_ce_inherited_namespace_no_error :
    signalsFn (defineClass (signalsDecorator (defineClass initWorld 1 0) 1
      [SchemaArg.str "evt"]) 2 1) 2 = Except.ok [("evt", 1)] ∧
    2 ∉ (defineClass (signalsDecorator (defineClass initWorld 1 0) 1
      [SchemaArg.str "evt"]) 2 1).signalClasses := by
  exact ⟨rfl, by decide⟩

/-- C8 (amended): `signals()` raises No-Namespace exactly when no class in
the mro carries a `signal_namespace` attribute; a type that was never
declared but has a declared ancestor returns the ancestor table without
error, and a declared type returns its own table. -/
theorem c8_no_namespace_iff_attr_missing (w : World) (c : CId) :
    ((signalsFn w c = Except.error (PyErr.namespaceNotDefined c)) ↔ hasattrNmsp w c = false) ∧
    (∀ (tbl : List (String × ChId)) (t : List CId),
      lookA c w.nmsp = some tbl → mroOf w c = c :: t → signalsFn w c = Except.ok tbl) := by
  constructor
  · unfold signalsFn
    by_cases h : hasattrNmsp w c = true
    · simp [h]
    · simp [h]
  · intro tbl t htbl hmro
    have hown : hasOwnNmsp w c = true := by simp [hasOwnNmsp, htbl]
    have hfind : findNmspOwner w c = some c := by
      unfold findNmspOwner
      rw [hmro]
      exact List.find?_cons_of_pos _ hown
    have hattr : hasattrNmsp w c = true := by simp [hasattrNmsp, hfind]
    unfold signalsFn
    rw [hattr]
    simp [getattrNmsp, hfind, htbl]

/-- C8 witness: the amended statement evaluated on the one-class world where
class 1 declared `evt`. -/
theorem c8_no_namespace_iff_attr_missing_witness :
    signalsFn (signalsDecorator (defineClass initWorld 1 0) 1 [SchemaArg.str "evt"]) 1 =
      Except.ok [("evt", 1)] :=
  (c8_no_namespace_iff_attr_missing
    (signalsDecorator (defineClass initWorld 1 0) 1 [SchemaArg.str "evt"]) 1).2
    [("evt", 1)] [0] (by decide) (by decide)

/-! ### Claim C3: base-wins inheritance merge -/

/-- C3: the ancestor merge walks the mro most-derived first and merges with
Python dict semantics, so a later-visited (more base) entry overwrites an
earlier one: on any collision the second operand of `dictMerge` wins, and in
the concrete two-class scenario where class 1 declares `created` and its
subclass 2 also declares `created`, the merged view of class 2 resolves
`created` to the channel of class 1 (channel 1), not to the own channel of
class 2 (channel 2). -/
theorem c3_merge_base_wins :
    (∀ (k : String) (a b : List (String × ChId)), (b.map Prod.fst).Nodup →
      lookA k (dictMerge a b) = (lookA k b).orElse (fun _ => lookA k a)) ∧
    lookA "created" ((lookA 1 (signalsDecorator (defineClass (signalsDecorator
      (defineClass initWorld 1 0) 1 [SchemaArg.str "created"]) 2 1) 2
      [SchemaArg.str "created"]).nmsp).getD []) = some 1 ∧
    lookA "created" ((lookA 2 (signalsDecorator (defineClass (signalsDecorator
      (defineClass initWorld 1 0) 1 [SchemaArg.str "created"]) 2 1) 2
      [SchemaArg.str "created"]).nmsp).getD []) = some 2 ∧
    lookA "created" (mergeDictClassVars (signalsDecorator (defineClass (signalsDecorator
      (defineClass initWorld 1 0) 1 [SchemaArg.str "created"]) 2 1) 2
      [SchemaArg.str "created"]) 2) = some 1 := by
  exact ⟨fun k a b hb => lookA_dictMerge k a b hb, rfl, rfl, rfl⟩

/-- C3 witness: the general merge fact evaluated at a concrete collision. -/
theorem c3_merge_base_wins_witness :
    lookA "created" (dictMerge [("created", 2)] [("created", 1)]) =
      (lookA "created" [(("created" : String), (1 : ChId))]).orElse
        (fun _ => lookA "created" [(("created" : String), (2 : ChId))]) :=
  c3_merge_base_wins.1 "created" [("created", 2)] [("created", 1)] (by decide)

/-! ### Claim C1: channel identity across re-declaration -/

/-- C1 counterexample: class 1 declares `evt`, a handler connects, and
`evt` is declared on class 1 a second time.  The claim says the channel
bound to `evt` is identical afterwards and the handler still fires; in the
code the second run of `signals_decorator` builds a fresh namespace with a
fresh channel, so the binding changes and an emission after the second
declaration never reaches the handler. -/
theorem c1_ce_redeclaration_discards_handler :
    ¬ (lookA "evt" (getattrNmsp (signalsDecorator ((connectClassSignal (signalsDecorator
        (defineClass initWorld 1 0) 1 [SchemaArg.str "evt"]) 1 "evt"
        (RecvId.user 7 "on_evt")).1) 1 [SchemaArg.str "evt"]) 1) =
      lookA "evt" (getattrNmsp (signalsDecorator (defineClass initWorld 1 0) 1
        [SchemaArg.str "evt"]) 1)) ∧
    countInvoc (RecvId.user 7 "on_evt") (logOf (sendClsSignal (signalsDecorator
      ((connectClassSignal (signalsDecorator (defineClass initWorld 1 0) 1
        [SchemaArg.str "evt"]) 1 "evt" (RecvId.user 7 "on_evt")).1) 1
      [SchemaArg.str "evt"]) 5 1 { oid := 9, name := "evt", cascade := false }
      none true []).2) = 0 := by
  decide

/-- C1 (amended): declaration is not channel-idempotent.  Re-declaring
`evt` on class 1 rebinds the name to a fresh channel (channel 2 instead of
channel 1); the previously connected handler stays on the old channel and
an emission after the second declaration delivers only to the fresh
cascade closure, never to the handler.  Only the lazy path is idempotent:
`init_class_signals` on a registered class is a no-op, preserving channel
identity. -/
theorem c1_redeclaration_replaces_channel (s : Nat) (kwargs : Payload)
    (hk : (kwargs.any fun kv => kv.1 = "signal") = false) :
    lookA "evt" (getattrNmsp (signalsDecorator (defineClass initWorld 1 0) 1
      [SchemaArg.str "evt"]) 1) = some 1 ∧
    lookA "evt" (getattrNmsp (signalsDecorator ((connectClassSignal (signalsDecorator
      (defineClass initWorld 1 0) 1 [SchemaArg.str "evt"]) 1 "evt"
      (RecvId.user 7 "on_evt")).1) 1 [SchemaArg.str "evt"]) 1) = some 2 ∧
    initClassSignals ((connectClassSignal (signalsDecorator (defineClass initWorld 1 0) 1
      [SchemaArg.str "evt"]) 1 "evt" (RecvId.user 7 "on_evt")).1) 1 =
      (connectClassSignal (signalsDecorator (defineClass initWorld 1 0) 1
        [SchemaArg.str "evt"]) 1 "evt" (RecvId.user 7 "on_evt")).1 ∧
    RecvId.user 7 "on_evt" ∈ chanRecvs (signalsDecorator ((connectClassSignal
      (signalsDecorator (defineClass initWorld 1 0) 1 [SchemaArg.str "evt"]) 1 "evt"
      (RecvId.user 7 "on_evt")).1) 1 [SchemaArg.str "evt"]) 1 ∧
    RecvId.user 7 "on_evt" ∉ chanRecvs (signalsDecorator ((connectClassSignal
      (signalsDecorator (defineClass initWorld 1 0) 1 [SchemaArg.str "evt"]) 1 "evt"
      (RecvId.user 7 "on_evt")).1) 1 [SchemaArg.str "evt"]) 2 ∧
    (sendClsSignal (signalsDecorator ((connectClassSignal (signalsDecorator
      (defineClass initWorld 1 0) 1 [SchemaArg.str "evt"]) 1 "evt"
      (RecvId.user 7 "on_evt")).1) 1 [SchemaArg.str "evt"]) 5 1
      { oid := 9, name := "evt", cascade := false } (some s) true kwargs).2 =
      Except.ok [(⟨RecvId.closure 2, s, kwargs ++ [("signal", 9)]⟩ : Invoc)] := by
  refine ⟨rfl, rfl, rfl, by decide, by decide, ?_⟩
  unfold sendClsSignal
  rw [hk]
  rfl

/-- C1 witness: the amended statement at sender 42 and payload key `a`. -/
theorem c1_redeclaration_replaces_channel_witness :
    (sendClsSignal (signalsDecorator ((connectClassSignal (signalsDecorator
      (defineClass initWorld 1 0) 1 [SchemaArg.str "evt"]) 1 "evt"
      (RecvId.user 7 "on_evt")).1) 1 [SchemaArg.str "evt"]) 5 1
      { oid := 9, name := "evt", cascade := false } (some 42) true [("a", 5)]).2 =
      Except.ok [(⟨RecvId.closure 2, 42, [("a", 5), ("signal", 9)]⟩ : Invoc)] :=
  (c1_redeclaration_replaces_channel 42 [("a", 5)] (by decide)).2.2.2.2.2

/-! ### Claim C4: cascade delivery to the base-level channel -/

/-- C4 counterexample: the claim quantifies over every cascading event name;
declaring the name `generic_event` itself with `cascade=true` attaches both
a base cascade and a universal cascade to the class channel, and both
forward to the same base channel, so a handler connected to the base-level
channel named `generic_event` is invoked twice by one emission, not once. -/
theorem c4_ce_generic_event_double_delivery :
    countInvoc (RecvId.user 7 "on_ge") (logOf (sendClsSignal (connectBaseSignal
      (signalsDecorator (defineClass initWorld 1 0) 1
        [SchemaArg.sch { oid := 3, name := "generic_event", cascade := true }])
      "generic_event" (RecvId.user 7 "on_ge")) 5 1
      { oid := 9, name := "generic_event", cascade := true } none true []).2) = 2 ∧
    ¬ countInvoc (RecvId.user 7 "on_ge") (logOf (sendClsSignal (connectBaseSignal
      (signalsDecorator (defineClass initWorld 1 0) 1
        [SchemaArg.sch { oid := 3, name := "generic_event", cascade := true }])
      "generic_event" (RecvId.user 7 "on_ge")) 5 1
      { oid := 9, name := "generic_event", cascade := true } none true []).2) = 1 := by
  decide

/-- C4 (amended): for an ordinary cascading event name (here `created`,
distinct from the reserved universal name), declaring it with
`cascade=true` on class 1 and connecting a handler to the base-level
channel of the same name makes one type-level emission invoke the handler
exactly once, with the emitted sender (explicit, or the class when the
sender defaults) and exactly the payload the type-level channel carried,
the schema injected under the key `signal` included. -/
theorem c4_cascade_delivers_once_same_sender_payload (s : Nat) (kwargs : Payload)
    (hk : (kwargs.any fun kv => kv.1 = "signal") = false) :
    (logOf (sendClsSignal (connectBaseSignal (signalsDecorator (defineClass initWorld 1 0) 1
      [SchemaArg.sch { oid := 3, name := "created", cascade := true }]) "created"
      (RecvId.user 7 "on_created")) 5 1 { oid := 9, name := "created", cascade := true }
      (some s) true kwargs).2).filter (fun i => i.recv == RecvId.user 7 "on_created") =
      [(⟨RecvId.user 7 "on_created", s, kwargs ++ [("signal", 9)]⟩ : Invoc)] ∧
    (logOf (sendClsSignal (connectBaseSignal (signalsDecorator (defineClass initWorld 1 0) 1
      [SchemaArg.sch { oid := 3, name := "created", cascade := true }]) "created"
      (RecvId.user 7 "on_created")) 5 1 { oid := 9, name := "created", cascade := true }
      none true kwargs).2).filter (fun i => i.recv == RecvId.user 7 "on_created") =
      [(⟨RecvId.user 7 "on_created", 1, kwargs ++ [("signal", 9)]⟩ : Invoc)] := by
  constructor
  · unfold sendClsSignal
    rw [hk]
    rfl
  · unfold sendClsSignal
    rw [hk]
    rfl

/-- C4 witness: the amended statement at sender 42 and payload key `a`. -/
theorem c4_cascade_delivers_once_same_sender_payload_witness :
    (logOf (sendClsSignal (connectBaseSignal (signalsDecorator (defineClass initWorld 1 0) 1
      [SchemaArg.sch { oid := 3, name := "created", cascade := true }]) "created"
      (RecvId.user 7 "on_created")) 5 1 { oid := 9, name := "created", cascade := true }
      (some 42) true [("a", 5)]).2).filter (fun i => i.recv == RecvId.user 7 "on_created") =
      [(⟨RecvId.user 7 "on_created", 42, [("a", 5), ("signal", 9)]⟩ : Invoc)] :=
  (c4_cascade_delivers_once_same_sender_payload 42 [("a", 5)] (by decide)).1

/-! ### Claim C5: universal fan-out exactly once -/

/-- C5 counterexample: the claim quantifies over every declared name; in a
declaration of the names `x` and `generic_event_x` (the latter cascading),
the cascade attribute slot of `generic_event_x` is the string
`_cascade_generic_event_x`, which collides with the universal-cascade
attribute slot of `x`, so setting it drops the universal-cascade closure of
`x` and a handler on the universal channel is invoked zero times by an
emission of `x`, not once. -/
theorem c5_ce_attr_collision_drops_universal_edge :
    countInvoc (RecvId.user 7 "on_any") (logOf (sendClsSignal (connectBaseSignal
      (signalsDecorator (defineClass initWorld 1 0) 1 [SchemaArg.str "x",
        SchemaArg.sch { oid := 3, name := "generic_event_x", cascade := true }])
      "generic_event" (RecvId.user 7 "on_any")) 5 1
      { oid := 9, name := "x", cascade := false } none true []).2) = 0 ∧
    ¬ countInvoc (RecvId.user 7 "on_any") (logOf (sendClsSignal (connectBaseSignal
      (signalsDecorator (defineClass initWorld 1 0) 1 [SchemaArg.str "x",
        SchemaArg.sch { oid := 3, name := "generic_event_x", cascade := true }])
      "generic_event" (RecvId.user 7 "on_any")) 5 1
      { oid := 9, name := "x", cascade := false } none true []).2) = 1 := by
  decide

/-- C5 (amended): for a type declared once with a single event named
`created` and either cascade flag, a handler connected to the universal
channel is invoked exactly once per type-level emission, with the emitted
sender and payload. -/
theorem c5_universal_fanout_once (b : Bool) (s : Nat) (kwargs : Payload)
    (hk : (kwargs.any fun kv => kv.1 = "signal") = false) :
    (logOf (sendClsSignal (connectBaseSignal (signalsDecorator (defineClass initWorld 1 0) 1
      [SchemaArg.sch { oid := 3, name := "created", cascade := b }]) "generic_event"
      (RecvId.user 7 "on_any")) 5 1 { oid := 9, name := "created", cascade := b }
      (some s) true kwargs).2).filter (fun i => i.recv == RecvId.user 7 "on_any") =
      [(⟨RecvId.user 7 "on_any", s, kwargs ++ [("signal", 9)]⟩ : Invoc)] := by
  cases b
  · unfold sendClsSignal
    rw [hk]
    rfl
  · unfold sendClsSignal
    rw [hk]
    rfl

/-- C5 witness: the amended statement at both cascade flags. -/
theorem c5_universal_fanout_once_witness :
    (logOf (sendClsSignal (connectBaseSignal (signalsDecorator (defineClass initWorld 1 0) 1
      [SchemaArg.sch { oid := 3, name := "created", cascade := true }]) "generic_event"
      (RecvId.user 7 "on_any")) 5 1 { oid := 9, name := "created", cascade := true }
      (some 42) true [("a", 5)]).2).filter (fun i => i.recv == RecvId.user 7 "on_any") =
      [(⟨RecvId.user 7 "on_any", 42, [("a", 5), ("signal", 9)]⟩ : Invoc)] :=
  c5_universal_fanout_once true 42 [("a", 5)] (by decide)

/-! ### Claim C7: transitive connection is a point-in-time snapshot -/

/-- C7: class 1 declares `evt`; subclasses 2 and 3 of class 1 and subclass
4 of class 2 exist before the transitive connection call.  The call
succeeds, lazily declares every subclass, and registers the handler exactly
on the `evt` channels of classes 1, 2, 3 and 4 (channels 1 to 4) and
nowhere else.  A class 5 subclassing class 2 defined after the call has no
own table, and even when class 5 is later declared, its fresh `evt`
channel (channel 5) does not carry the handler. -/
theorem c7_transitive_connection_snapshot :
    (connectSubclasses (defineClass (defineClass (defineClass (signalsDecorator
      (defineClass initWorld 1 0) 1 [SchemaArg.str "evt"]) 2 1) 3 1) 4 2) [1] "evt"
      (RecvId.user 7 "on_evt")).2 = Except.ok () ∧
    (lookA "evt" ((lookA 1 ((connectSubclasses (defineClass (defineClass (defineClass
      (signalsDecorator (defineClass initWorld 1 0) 1 [SchemaArg.str "evt"]) 2 1) 3 1) 4 2)
      [1] "evt" (RecvId.user 7 "on_evt")).1).nmsp).getD []) = some 1 ∧
     lookA "evt" ((lookA 2 ((connectSubclasses (defineClass (defineClass (defineClass
      (signalsDecorator (defineClass initWorld 1 0) 1 [SchemaArg.str "evt"]) 2 1) 3 1) 4 2)
      [1] "evt" (RecvId.user 7 "on_evt")).1).nmsp).getD []) = some 2 ∧
     lookA "evt" ((lookA 3 ((connectSubclasses (defineClass (defineClass (defineClass
      (signalsDecorator (defineClass initWorld 1 0) 1 [SchemaArg.str "evt"]) 2 1) 3 1) 4 2)
      [1] "evt" (RecvId.user 7 "on_evt")).1).nmsp).getD []) = some 3 ∧
     lookA "evt" ((lookA 4 ((connectSubclasses (defineClass (defineClass (defineClass
      (signalsDecorator (defineClass initWorld 1 0) 1 [SchemaArg.str "evt"]) 2 1) 3 1) 4 2)
      [1] "evt" (RecvId.user 7 "on_evt")).1).nmsp).getD []) = some 4) ∧
    (∀ ch : ChId, (RecvId.user 7 "on_evt" ∈ chanRecvs ((connectSubclasses (defineClass
      (defineClass (defineClass (signalsDecorator (defineClass initWorld 1 0) 1
      [SchemaArg.str "evt"]) 2 1) 3 1) 4 2) [1] "evt" (RecvId.user 7 "on_evt")).1) ch) ↔
      ch ∈ [1, 2, 3, 4]) ∧
    lookA 5 (defineClass ((connectSubclasses (defineClass (defineClass (defineClass
      (signalsDecorator (defineClass initWorld 1 0) 1 [SchemaArg.str "evt"]) 2 1) 3 1) 4 2)
      [1] "evt" (RecvId.user 7 "on_evt")).1) 5 2).nmsp = none ∧
    (lookA "evt" ((lookA 5 (signalsDecorator (defineClass ((connectSubclasses (defineClass
      (defineClass (defineClass (signalsDecorator (defineClass initWorld 1 0) 1
      [SchemaArg.str "evt"]) 2 1) 3 1) 4 2) [1] "evt" (RecvId.user 7 "on_evt")).1) 5 2)
      5 []).nmsp).getD []) = some 5 ∧
     RecvId.user 7 "on_evt" ∉ chanRecvs (signalsDecorator (defineClass ((connectSubclasses
      (defineClass (defineClass (defineClass (signalsDecorator (defineClass initWorld 1 0) 1
      [SchemaArg.str "evt"]) 2 1) 3 1) 4 2) [1] "evt" (RecvId.user 7 "on_evt")).1) 5 2)
      5 []) 5) := by
  refine ⟨rfl, ⟨rfl, rfl, rfl, rfl⟩, ?_, rfl, rfl, by decide⟩
  intro ch
  have hch : ((connectSubclasses (defineClass (defineClass (defineClass (signalsDecorator
      (defineClass initWorld 1 0) 1 [SchemaArg.str "evt"]) 2 1) 3 1) 4 2) [1] "evt"
      (RecvId.user 7 "on_evt")).1).chans =
      [(0, []), (1, [RecvId.closure 0, RecvId.user 7 "on_evt"]),
       (2, [RecvId.closure 1, RecvId.user 7 "on_evt"]),
       (3, [RecvId.closure 2, RecvId.user 7 "on_evt"]),
       (4, [RecvId.closure 3, RecvId.user 7 "on_evt"])] := by decide
  unfold chanRecvs
  rw [hch]
  simp only [lookA]
  split_ifs <;> simp_all

/-! ### Claim C10: the reserved payload key `signal` -/

/-- C10: every successful emission injects the schema into the payload
under the keyword `signal`, so a type-level or instance-level emission
whose payload already carries a key `signal` fails with the
duplicate-keyword error when the send call is built: for any world in which
the event name is declared (so that emission would otherwise proceed) and
the condition holds, the result is the duplicate-keyword error, the world
is unchanged and no handler is invoked. -/
theorem c10_reserved_signal_key (w : World) (fuel : Nat) (c : CId) (selfId : Nat)
    (sig : SignalSchema) (sender : Option Nat) (kwargs : Payload)
    (hattr : hasattrNmsp w c = true)
    (hpresent : (lookA sig.name (getattrNmsp w c)).isSome = true)
    (hdup : (kwargs.any fun kv => kv.1 = "signal") = true) :
    sendClsSignal w fuel c sig sender true kwargs =
      (w, Except.error (PyErr.dupKeyword "signal")) ∧
    sendSignal w fuel c selfId sig sender true kwargs =
      (w, Except.error (PyErr.dupKeyword "signal")) := by
  have main : ∀ sd : Option Nat, sendClsSignal w fuel c sig sd true kwargs =
      (w, Except.error (PyErr.dupKeyword "signal")) := by
    intro sd
    unfold sendClsSignal signalsFn
    rw [hattr]
    simp only [if_true]
    rw [hpresent]
    simp only [if_true]
    rw [hdup]
    simp only [if_true]
  exact ⟨main sender, main (some (sender.getD selfId))⟩

/-- C10 witness: emitting `evt` on the declared class 1 with the payload
key `signal` already present. -/
theorem c10_reserved_signal_key_witness :
    sendClsSignal (signalsDecorator (defineClass initWorld 1 0) 1 [SchemaArg.str "evt"]) 5 1
      { oid := 9, name := "evt", cascade := false } none true [("signal", 3)] =
      (signalsDecorator (defineClass initWorld 1 0) 1 [SchemaArg.str "evt"],
        Except.error (PyErr.dupKeyword "signal")) :=
  (c10_reserved_signal_key (signalsDecorator (defineClass initWorld 1 0) 1
    [SchemaArg.str "evt"]) 5 1 0 { oid := 9, name := "evt", cascade := false } none
    [("signal", 3)] (by decide) (by decide) (by decide)).1

/-! ### Characterisations of the connect and emit control flow -/

theorem signalsFn_of_hasattr (w : World) (c : CId) (h : hasattrNmsp w c = true) :
    signalsFn w c = Except.ok (getattrNmsp w c) := by
  unfold signalsFn
  rw [h]
  rfl

theorem signalsFn_of_no_attr (w : World) (c : CId) (h : hasattrNmsp w c = false) :
    signalsFn w c = Except.error (PyErr.namespaceNotDefined c) := by
  unfold signalsFn
  rw [h]
  rfl

/-- After a lazy initialisation attempt the class always carries a
reachable namespace, provided the world is sane: registered classes own a
namespace and the mro starts with the class itself. -/
theorem initClassSignals_ready (w : World) (c : CId) (t : List CId)
    (hReg : c ∈ w.signalClasses → hasOwnNmsp w c = true)
    (hmro : mroOf w c = c :: t) :
    hasattrNmsp (initClassSignals w c) c = true := by
  unfold initClassSignals
  split
  · have hown := hReg (by assumption)
    have hfind : findNmspOwner w c = some c := by
      unfold findNmspOwner
      rw [hmro]
      exact List.find?_cons_of_pos _ hown
    simp [hasattrNmsp, hfind]
  · have hown := signalsDecorator_hasOwn w c []
    have hm2 : mroOf (signalsDecorator w c []) c = c :: t := by
      rw [mroOf_signalsDecorator, hmro]
    have hfind : findNmspOwner (signalsDecorator w c []) c = some c := by
      unfold findNmspOwner
      rw [hm2]
      exact List.find?_cons_of_pos _ hown
    simp [hasattrNmsp, hfind]

/-- Control flow of `connect_class_signal` in a sane world: lazy attempt,
lookup in the table after the attempt, then error or registration. -/
theorem connectClassSignal_char (w : World) (c : CId) (n : String) (fn : RecvId)
    (t : List CId) (hReg : c ∈ w.signalClasses → hasOwnNmsp w c = true)
    (hmro : mroOf w c = c :: t) :
    connectClassSignal w c n fn =
      (match lookA n (getattrNmsp (initClassSignals w c) c) with
       | none => (initClassSignals w c, Except.error (PyErr.signalNotDefinedOnClass c))
       | some ch => (connectRecv (initClassSignals w c) ch fn, Except.ok ())) := by
  unfold connectClassSignal
  dsimp only
  rw [signalsFn_of_hasattr _ _ (initClassSignals_ready w c t hReg hmro)]

theorem sendClsSignal_no_attr (w : World) (fuel : Nat) (c : CId) (sig : SignalSchema)
    (sender : Option Nat) (kwargs : Payload) (h : hasattrNmsp w c = false) :
    sendClsSignal w fuel c sig sender true kwargs =
      (w, Except.error (PyErr.namespaceNotDefined c)) := by
  unfold sendClsSignal
  dsimp only
  rw [signalsFn_of_no_attr w c h]
  rfl

theorem ite_isSome_some {α β : Type} (v : α) (a b : β) :
    (if (some v).isSome = true then a else b) = a := rfl

theorem ite_isSome_none {α β : Type} (a b : β) :
    (if (Option.none (α := α)).isSome = true then a else b) = b := rfl

theorem sendClsSignal_present (w : World) (fuel : Nat) (c : CId) (sig : SignalSchema)
    (sender : Option Nat) (kwargs : Payload) (ch : ChId)
    (hattr : hasattrNmsp w c = true)
    (hlook : lookA sig.name (getattrNmsp w c) = some ch) :
    sendClsSignal w fuel c sig sender true kwargs =
      (if (kwargs.any fun kv => kv.1 = "signal") = true
       then (w, Except.error (PyErr.dupKeyword "signal"))
       else (w, Except.ok (sendChan w fuel ch (sender.getD c)
         (kwargs ++ [("signal", sig.oid)])))) := by
  unfold sendClsSignal
  dsimp only
  rw [signalsFn_of_hasattr w c hattr]
  dsimp only
  rw [hlook, ite_isSome_some]
  dsimp only
  rw [hlook]
  rfl

theorem sendClsSignal_absent (w : World) (fuel : Nat) (c : CId) (sig : SignalSchema)
    (sender : Option Nat) (kwargs : Payload) (t : List CId)
    (hattr : hasattrNmsp w c = true)
    (hlook : lookA sig.name (getattrNmsp w c) = none)
    (hReg : c ∈ w.signalClasses → hasOwnNmsp w c = true)
    (hmro : mroOf w c = c :: t) :
    sendClsSignal w fuel c sig sender true kwargs =
      (match lookA sig.name (getattrNmsp (initClassSignals w c) c) with
       | none => (initClassSignals w c, Except.error (PyErr.signalNotExisting c))
       | some ch =>
         if (kwargs.any fun kv => kv.1 = "signal") = true
         then (initClassSignals w c, Except.error (PyErr.dupKeyword "signal"))
         else (initClassSignals w c, Except.ok (sendChan (initClassSignals w c) fuel ch
           (sender.getD c) (kwargs ++ [("signal", sig.oid)])))) := by
  unfold sendClsSignal
  dsimp only
  rw [signalsFn_of_hasattr w c hattr]
  dsimp only
  rw [hlook, ite_isSome_none]
  rw [signalsFn_of_hasattr _ _ (initClassSignals_ready w c t hReg hmro)]
  dsimp only
  cases hlook2 : lookA sig.name (getattrNmsp (initClassSignals w c) c) with
  | none =>
    rw [ite_isSome_none]
    rfl
  | some ch =>
    rw [ite_isSome_some]
    dsimp only
    rw [hlook2]
    rfl

/-- A connected receiver is registered. -/
theorem connectRecv_mem_self (w : World) (ch : ChId) (r : RecvId) :
    r ∈ chanRecvs (connectRecv w ch r) ch := by
  unfold connectRecv
  dsimp only
  split
  · assumption
  · rw [chanRecvs_setA, if_pos rfl]
    exact List.mem_append_right _ (List.mem_singleton.mpr rfl)

/-! ### Claim C6: Signal-Not-Defined raises-iff -/

/-- C6 counterexample: emitting on a freshly defined, never declared class
with no declared ancestor does not trigger the lazy declaration attempt the
claim requires (the registry stays empty) and raises the No-Namespace
error rather than Signal-Not-Defined, because `send_cls_signal` calls
`cls.signals()` before its lazy-initialisation branch. -/
theorem c6_ce_fresh_type_emit_no_namespace :
    sendClsSignal (defineClass initWorld 1 0) 5 1 { oid := 9, name := "evt", cascade := false }
      none true [] =
      (defineClass initWorld 1 0, Except.error (PyErr.namespaceNotDefined 1)) ∧
    (sendClsSignal (defineClass initWorld 1 0) 5 1 { oid := 9, name := "evt", cascade := false }
      none true []).1.signalClasses = [] ∧
    PyErr.namespaceNotDefined 1 ≠ PyErr.signalNotExisting 1 := by
  exact ⟨rfl, rfl, by decide⟩

/-- C6 (amended): in a sane world (registered classes own a namespace, the
mro starts with the class), connecting first runs the lazy declaration
attempt and raises Signal-Not-Defined exactly when the name is absent from
the table after the attempt; on that error path no user handler is added or
removed anywhere, and on success the handler lands on the looked-up
channel.  Emission behaves the same way only when a namespace attribute is
reachable: with the name present it proceeds without any lazy attempt and
raises neither error; with the name absent it runs the lazy attempt and
raises Signal-Not-Defined exactly when the name is still absent; with no
namespace attribute reachable at all it raises No-Namespace immediately,
leaving the world, and hence the registry, untouched. -/
theorem c6_lazy_attempt_and_error_paths (w : World) (c : CId) (n : String)
    (sig : SignalSchema) (hid : Nat) (hn : String) (sender : Option Nat) (kwargs : Payload)
    (t : List CId)
    (hF : ChanFresh w)
    (hReg : c ∈ w.signalClasses → hasOwnNmsp w c = true)
    (hmro : mroOf w c = c :: t) :
    (((connectClassSignal w c n (RecvId.user hid hn)).2 =
        Except.error (PyErr.signalNotDefinedOnClass c)) ↔
      lookA n (getattrNmsp (initClassSignals w c) c) = none) ∧
    (c ∉ w.signalClasses →
      c ∈ (connectClassSignal w c n (RecvId.user hid hn)).1.signalClasses) ∧
    ((connectClassSignal w c n (RecvId.user hid hn)).2 =
        Except.error (PyErr.signalNotDefinedOnClass c) →
      UserPres (connectClassSignal w c n (RecvId.user hid hn)).1 w) ∧
    (∀ ch : ChId, lookA n (getattrNmsp (initClassSignals w c) c) = some ch →
      RecvId.user hid hn ∈ chanRecvs (connectClassSignal w c n (RecvId.user hid hn)).1 ch) ∧
    (hasattrNmsp w c = true → ∀ ch : ChId,
      lookA sig.name (getattrNmsp w c) = some ch →
      (sendClsSignal w 5 c sig sender true kwargs).1 = w ∧
      (sendClsSignal w 5 c sig sender true kwargs).2 ≠
        Except.error (PyErr.signalNotExisting c) ∧
      (sendClsSignal w 5 c sig sender true kwargs).2 ≠
        Except.error (PyErr.namespaceNotDefined c)) ∧
    (hasattrNmsp w c = true → lookA sig.name (getattrNmsp w c) = none →
      (sendClsSignal w 5 c sig sender true kwargs).1 = initClassSignals w c ∧
      ((sendClsSignal w 5 c sig sender true kwargs).2 =
          Except.error (PyErr.signalNotExisting c) ↔
        lookA sig.name (getattrNmsp (initClassSignals w c) c) = none)) ∧
    (hasattrNmsp w c = false →
      sendClsSignal w 5 c sig sender true kwargs =
        (w, Except.error (PyErr.namespaceNotDefined c))) := by
  have hcc := connectClassSignal_char w c n (RecvId.user hid hn) t hReg hmro
  refine ⟨?_, ?_, ?_, ?_, ?_, ?_, ?_⟩
  · rw [hcc]
    cases hl : lookA n (getattrNmsp (initClassSignals w c) c) with
    | none => simp
    | some ch => simp
  · intro hnm
    have hmem : c ∈ (initClassSignals w c).signalClasses := by
      unfold initClassSignals
      rw [if_neg hnm]
      exact signalsDecorator_mem_signalClasses w c []
    rw [hcc]
    cases hl : lookA n (getattrNmsp (initClassSignals w c) c) with
    | none => exact hmem
    | some ch =>
      show c ∈ (connectRecv (initClassSignals w c) ch (RecvId.user hid hn)).signalClasses
      rw [(connectRecv_frame (initClassSignals w c) ch (RecvId.user hid hn)).2.1]
      exact hmem
  · rw [hcc]
    cases hl : lookA n (getattrNmsp (initClassSignals w c) c) with
    | none =>
      intro _
      exact (initClassSignals_inv w c hF).2
    | some ch =>
      intro herr
      exact absurd herr (by simp)
  · intro ch hl
    rw [hcc, hl]
    exact connectRecv_mem_self (initClassSignals w c) ch (RecvId.user hid hn)
  · intro hattr ch hl
    rw [sendClsSignal_present w 5 c sig sender kwargs ch hattr hl]
    refine ⟨?_, ?_, ?_⟩
    · split <;> rfl
    · split <;> simp
    · split <;> simp
  · intro hattr hl
    rw [sendClsSignal_absent w 5 c sig sender kwargs t hattr hl hReg hmro]
    cases hl2 : lookA sig.name (getattrNmsp (initClassSignals w c) c) with
    | none => exact ⟨rfl, by simp⟩
    | some ch =>
      constructor
      · dsimp only
        split <;> rfl
      · dsimp only
        constructor
        · split <;> simp
        · split <;> simp
  · intro h7
    exact sendClsSignal_no_attr w 5 c sig sender kwargs h7

/-- C6 witness: in the world where class 1 declared `evt`, connecting a
handler for `evt` succeeds and registers it on channel 1. -/
theorem c6_lazy_attempt_and_error_paths_witness :
    RecvId.user 7 "h" ∈ chanRecvs (connectClassSignal (signalsDecorator
      (defineClass initWorld 1 0) 1 [SchemaArg.str "evt"]) 1 "evt" (RecvId.user 7 "h")).1 1 :=
  (c6_lazy_attempt_and_error_paths (signalsDecorator (defineClass initWorld 1 0) 1
    [SchemaArg.str "evt"]) 1 "evt" { oid := 9, name := "evt", cascade := false } 7 "h"
    none [] [0] (by unfold ChanFresh; decide) (by decide) (by decide)).2.2.2.1 1 (by decide)
